import Mathlib

/-!
Shallow embedding of the serverless image-generation pipeline: the receiver
lambda (job submission), the worker lambda (job processing), and the responder
lambda (status read with presigned-link renewal), together with a small
transition system describing the reachable states of the whole system.
-/

/-- JS falsiness test for an optional string value: in the handlers,
a test such as `!productUrl` or `!job.imageUrl` is true when the value is
`undefined` and when it is the empty string. -/
def jsFalsyStr : Option String → Bool
  | none => true
  | some s => s = ""

/-- One lowercase hex digit, as produced by Buffer.toString with the hex
encoding in the worker. -/
def hexDigit : Nat → Char
  | 0 => '0' | 1 => '1' | 2 => '2' | 3 => '3' | 4 => '4' | 5 => '5' | 6 => '6'
  | 7 => '7' | 8 => '8' | 9 => '9' | 10 => 'a' | 11 => 'b' | 12 => 'c'
  | 13 => 'd' | 14 => 'e' | _ => 'f'

/-- Two lowercase hex digits of one byte. -/
def byteHex (b : Nat) : List Char :=
  [hexDigit (b % 256 / 16), hexDigit (b % 16)]

/-- Hex rendering of the first four bytes of the image buffer, the worker's
file signature computed by Buffer.toString over bytes 0 to 4. -/
def fileSignature (bytes : List Nat) : List Char :=
  ((bytes.take 4).map byteHex).flatten

/-- Format detection from the worker: a signature starting with hex ffd8 is
JPEG, one starting with 8950 is PNG, anything else defaults to JPEG.
Returns the pair of the file extension and the content type. -/
def detectFormat (bytes : List Nat) : String × String :=
  if ['f', 'f', 'd', '8'].isPrefixOf (fileSignature bytes) then ("jpg", "image/jpeg")
  else if ['8', '9', '5', '0'].isPrefixOf (fileSignature bytes) then ("png", "image/png")
  else ("jpg", "image/jpeg")

/-- First replace of the worker's sanitizeMetadata: carriage return, newline
and tab become a space. -/
def replaceCrLfTab (c : Char) : Char :=
  if c = '\r' ∨ c = '\n' ∨ c = '\t' then ' ' else c

/-- Printable-ASCII test: the character class kept by the second replace of
sanitizeMetadata (codes 0x20 to 0x7E). -/
def isPrintableAscii (c : Char) : Bool :=
  decide (32 ≤ c.toNat ∧ c.toNat ≤ 126)

/-- The ASCII whitespace characters removed by the JS string trim method. -/
def jsWhitespace (c : Char) : Bool :=
  c == ' ' || c == '\t' || c == '\n' || c == '\r' || c.toNat == 11 || c.toNat == 12

/-- JS trim on a character list: drops leading and trailing whitespace. -/
def jsTrim (l : List Char) : List Char :=
  ((l.dropWhile jsWhitespace).reverse.dropWhile jsWhitespace).reverse

/-- The worker's sanitizeMetadata: a falsy value becomes the empty string;
otherwise newlines and tabs become spaces, non-printable ASCII characters are
removed, the result is cut to 200 characters and trimmed. -/
def sanitizeMetadata (value : Option String) : String :=
  match value with
  | none => ""
  | some v =>
    if v = "" then ""
    else String.mk (jsTrim (((v.toList.map replaceCrLfTab).filter isPrintableAscii).take 200))

/-- A job record in the DynamoDB table.  Every attribute other than the key
is optional: an upsert by updateJobStatus may create a record holding only a
subset of them. -/
structure JobRecord where
  jobId : String
  productUrl : Option String := none
  status : String := ""
  createdAt : Option Nat := none
  ttl : Option Nat := none
  imageUrl : Option String := none
  fileName : Option String := none
  productName : Option String := none
  price : Option String := none
  offer : Option String := none
  contentType : Option String := none
  completedAt : Option Nat := none
  expiresAt : Option Nat := none
  overlayText : Option String := none
  error : Option String := none
  failedAt : Option Nat := none
  deriving Repr, DecidableEq

/-- The job table: an association list with at most one record per jobId. -/
abbrev JobStore := List (String × JobRecord)

/-- Point get of a job record by its key. -/
def getJob (s : JobStore) (jobId : String) : Option JobRecord :=
  (s.find? (fun p => p.1 == jobId)).map (·.2)

/-- Full replacement of the record stored under a key. -/
def putJob (s : JobStore) (jobId : String) (r : JobRecord) : JobStore :=
  (jobId, r) :: s.filter (fun p => p.1 != jobId)

/-- The worker's updateJobStatus: a DynamoDB UpdateCommand setting `status`
together with the additional-data fields; it upserts, creating the item when
the key is absent.  `extra` performs the additional-data assignments. -/
def updateJobStatus (s : JobStore) (jobId status : String)
    (extra : JobRecord → JobRecord) : JobStore :=
  let old := (getJob s jobId).getD { jobId := jobId }
  putJob s jobId (extra { old with status := status })

/-- The product information returned by the scrape collaborator. -/
structure ProductInfo where
  productName : String := ""
  description : String := ""
  price : String := ""
  originalPrice : String := ""
  offer : String := ""
  phone : String := ""
  location : String := ""
  bodyText : String := ""
  deriving Repr, DecidableEq

/-- Results of the worker's external calls for one delivered message: the
scrape of the product page, the AI synthesis (where `ok none` models a
response with no image-generation output, which the worker turns into the
thrown error "No image returned from AI"), the S3 upload, and presigned-URL
generation for an object key. -/
structure WorkerEnv where
  scrape : Except String ProductInfo
  synthResult : Except String (Option (List Nat))
  uploadResult : Except String Unit
  presign : String → String

/-- One S3 PutObject performed by the worker, with its sanitized metadata. -/
structure S3Put where
  key : String
  contentType : String
  metaProductname : String
  metaPrice : String
  metaProducturl : String
  deriving Repr, DecidableEq

/-- One iteration of the worker handler's loop over the delivered records:
set status processing, scrape, synthesize, detect the image format, upload,
presign, and write the terminal completed record; any error thrown by a
pipeline step is caught and written as status failed with the error message
and a failedAt timestamp.  Returns the job store after the invocation and
the list of S3 uploads performed. -/
def processRecord (env : WorkerEnv) (s : JobStore) (now : Nat)
    (jobId productUrl : String) : JobStore × List S3Put :=
  let s1 := updateJobStatus s jobId "processing" id
  match env.scrape with
  | .error e =>
    (updateJobStatus s1 jobId "failed"
      (fun r => { r with error := some e, failedAt := some now }), [])
  | .ok info =>
    match env.synthResult with
    | .error e =>
      (updateJobStatus s1 jobId "failed"
        (fun r => { r with error := some e, failedAt := some now }), [])
    | .ok none =>
      (updateJobStatus s1 jobId "failed"
        (fun r => { r with
                    error := some "No image returned from AI",
                    failedAt := some now }), [])
    | .ok (some bytes) =>
      let fmt := detectFormat bytes
      let fileName := jobId ++ "." ++ fmt.1
      let put : S3Put :=
        { key := fileName
          contentType := fmt.2
          metaProductname := sanitizeMetadata (some info.productName)
          metaPrice := sanitizeMetadata (some info.price)
          metaProducturl := sanitizeMetadata (some productUrl) }
      match env.uploadResult with
      | .error e =>
        (updateJobStatus s1 jobId "failed"
          (fun r => { r with error := some e, failedAt := some now }), [])
      | .ok _ =>
        let url := env.presign fileName
        (updateJobStatus s1 jobId "completed"
          (fun r => { r with
            imageUrl := some url, fileName := some fileName,
            productName := some info.productName, price := some info.price,
            offer := some info.offer, contentType := some fmt.2,
            completedAt := some now, expiresAt := some (now + 3600000) }), [put])

/-- The error message caught by the worker's try/catch when some pipeline
step throws; `none` when the whole pipeline succeeds. -/
def pipelineError (env : WorkerEnv) : Option String :=
  match env.scrape with
  | .error e => some e
  | .ok _ =>
    match env.synthResult with
    | .error e => some e
    | .ok none => some "No image returned from AI"
    | .ok (some _) =>
      match env.uploadResult with
      | .error e => some e
      | .ok _ => none

/-- The JSON body returned by the responder. -/
structure StatusResponse where
  statusCode : Nat
  jobId : Option String := none
  status : Option String := none
  createdAt : Option Nat := none
  imageUrl : Option String := none
  urlExpiresAt : Option Nat := none
  overlayText : Option String := none
  contentType : Option String := none
  completedAt : Option Nat := none
  fileName : Option String := none
  error : Option String := none
  failedAt : Option Nat := none
  message : Option String := none
  deriving Repr, DecidableEq

/-- Result of one responder invocation: the HTTP response, the job store
after the invocation, and the object keys for which a presigned URL was
requested from S3. -/
structure ReadResult where
  response : StatusResponse
  store : JobStore
  presignCalls : List String
  deriving Repr

/-- The renewal decision of the responder for a completed job: regenerate
when the stored URL is falsy or expires within five minutes of now, provided
a file name is stored; otherwise return the stored pair.  Returns the
imageUrl and urlExpiresAt placed in the response, and the presign calls
performed. -/
def ensureFreshLink (presign : String → String) (job : JobRecord) (now : Nat) :
    (Option String × Nat) × List String :=
  let urlExpiresAt := job.expiresAt.getD 0
  if jsFalsyStr job.imageUrl = true ∨ urlExpiresAt < now + 300000 then
    if jsFalsyStr job.fileName = false then
      let fileName := job.fileName.getD ""
      ((some (presign fileName), now + 3600000), [fileName])
    else ((job.imageUrl, urlExpiresAt), [])
  else ((job.imageUrl, urlExpiresAt), [])

/-- The responder lambda: point get of the job record, 404 when absent, and
for each status the response shape of the source; a completed job goes
through the link-renewal decision.  The job store is returned unchanged:
the responder performs no write. -/
def statusRead (presign : String → String) (s : JobStore)
    (jobIdOpt : Option String) (now : Nat) : ReadResult :=
  let rc : StatusResponse × List String :=
    match jobIdOpt with
    | none => ({ statusCode := 400, message := some "Missing jobId" }, [])
    | some jobId =>
      match getJob s jobId with
      | none => ({ statusCode := 404, message := some "Job not found" }, [])
      | some job =>
        let base : StatusResponse :=
          { statusCode := 200, jobId := some job.jobId, status := some job.status,
            createdAt := job.createdAt }
        if job.status = "completed" then
          let fresh := ensureFreshLink presign job now
          ({ base with
             imageUrl := fresh.1.1, urlExpiresAt := some fresh.1.2,
             overlayText := job.overlayText, contentType := job.contentType,
             completedAt := job.completedAt, fileName := job.fileName }, fresh.2)
        else if job.status = "failed" then
          ({ base with error := job.error, failedAt := job.failedAt }, [])
        else if job.status = "processing" then
          ({ base with message := some "Image generation in progress" }, [])
        else (base, [])
  ⟨rc.1, s, rc.2⟩

/-- Externally visible write events of the receiver, in program order. -/
inductive RecvEvent where
  | putRecord (jobId : String)
  | sendMessage (jobId : String)
  deriving Repr, DecidableEq

/-- Result of one receiver invocation: the HTTP status code, the jobId
returned to the caller (only on the accepted path), the job store after the
invocation, the messages placed on the queue, and the ordered write events. -/
structure ReceiveResult where
  statusCode : Nat
  jobIdReturned : Option String
  store : JobStore
  queueSent : List (String × String)
  events : List RecvEvent
  deriving Repr

/-- The receiver lambda.  `newJobId` stands for the fresh randomUUID and
`enqueueOk` for whether the SQS SendMessage succeeds; when it throws, the
handler's catch returns a 500 after the record write already happened. -/
def receive (s : JobStore) (now : Nat) (newJobId : String)
    (enqueueOk : Bool) (productUrl : Option String) : ReceiveResult :=
  if jsFalsyStr productUrl = true then
    ⟨400, none, s, [], []⟩
  else
    let url := productUrl.getD ""
    let rec1 : JobRecord :=
      { jobId := newJobId, productUrl := some url, status := "pending",
        createdAt := some now, ttl := some (now / 1000 + 86400) }
    let s1 := putJob s newJobId rec1
    if enqueueOk then
      ⟨202, some newJobId, s1, [(newJobId, url)],
        [.putRecord newJobId, .sendMessage newJobId]⟩
    else
      ⟨500, none, s1, [], [.putRecord newJobId]⟩

/-- Global system state: the job table, the multiset of messages ever placed
on the work queue (at-least-once delivery: a message may be delivered and
processed any number of times), the jobIds for which a submission wrote a
record, and the jobIds returned to callers with an accepted response. -/
structure SysState where
  store : JobStore
  queue : List (String × String)
  submitted : List String
  accepted : List String

/-- One invocation of any of the three lambdas, as a step of the system. -/
inductive SysStep : SysState → SysState → Prop where
  | submit (st : SysState) (now : Nat) (newJobId : String) (enqueueOk : Bool)
      (productUrl : Option String) :
      SysStep st
        { store := (receive st.store now newJobId enqueueOk productUrl).store
          queue := st.queue ++ (receive st.store now newJobId enqueueOk productUrl).queueSent
          submitted :=
            if jsFalsyStr productUrl = true then st.submitted else newJobId :: st.submitted
          accepted :=
            match (receive st.store now newJobId enqueueOk productUrl).jobIdReturned with
            | some j => j :: st.accepted
            | none => st.accepted }
  | process (st : SysState) (env : WorkerEnv) (now : Nat) (jobId productUrl : String)
      (hq : (jobId, productUrl) ∈ st.queue) :
      SysStep st
        { store := (processRecord env st.store now jobId productUrl).1
          queue := st.queue, submitted := st.submitted, accepted := st.accepted }
  | read (st : SysState) (presign : String → String) (jobIdOpt : Option String)
      (now : Nat) :
      SysStep st
        { store := (statusRead presign st.store jobIdOpt now).store
          queue := st.queue, submitted := st.submitted, accepted := st.accepted }

/-- States reachable from the empty system. -/
inductive SysReachable : SysState → Prop where
  | init : SysReachable ⟨[], [], [], []⟩
  | step {st st' : SysState} : SysReachable st → SysStep st st' → SysReachable st'

/-! Store lemmas. -/

theorem getJob_putJob_self (s : JobStore) (j : String) (r : JobRecord) :
    getJob (putJob s j r) j = some r := by
  simp [getJob, putJob]

theorem mem_putJob {s : JobStore} {j : String} {r : JobRecord}
    {p : String × JobRecord} (h : p ∈ putJob s j r) : p = (j, r) ∨ p ∈ s := by
  rcases List.mem_cons.mp h with h1 | h1
  · exact Or.inl h1
  · exact Or.inr (List.mem_filter.mp h1).1

theorem getJob_updateJobStatus_self (s : JobStore) (j st : String)
    (f : JobRecord → JobRecord) :
    getJob (updateJobStatus s j st f) j =
      some (f { (getJob s j).getD { jobId := j } with status := st }) := by
  simp [updateJobStatus, getJob_putJob_self]

theorem mem_updateJobStatus {s : JobStore} {j st : String} {f : JobRecord → JobRecord}
    {p : String × JobRecord} (h : p ∈ updateJobStatus s j st f) : p.1 = j ∨ p ∈ s := by
  unfold updateJobStatus at h
  rcases mem_putJob h with h1 | h1
  · exact Or.inl (by rw [h1])
  · exact Or.inr h1

theorem mem_processRecord {env : WorkerEnv} {s : JobStore} {now : Nat} {j u : String}
    {p : String × JobRecord} (h : p ∈ (processRecord env s now j u).1) :
    p.1 = j ∨ p ∈ s := by
  have h2 : ∀ {st : String} {f : JobRecord → JobRecord},
      p ∈ updateJobStatus (updateJobStatus s j "processing" id) j st f →
      p.1 = j ∨ p ∈ s := by
    intro st f hm
    rcases mem_updateJobStatus hm with h1 | h1
    · exact Or.inl h1
    · exact mem_updateJobStatus h1
  rcases hs : env.scrape with e | info
  · simp only [processRecord, hs] at h
    exact h2 h
  · rcases hy : env.synthResult with e | ob
    · simp only [processRecord, hs, hy] at h
      exact h2 h
    · rcases ob with _ | bytes
      · simp only [processRecord, hs, hy] at h
        exact h2 h
      · rcases hu : env.uploadResult with e | _
        · simp only [processRecord, hs, hy, hu] at h
          exact h2 h
        · simp only [processRecord, hs, hy, hu] at h
          exact h2 h

theorem getJob_mem {s : JobStore} {j : String} {r : JobRecord}
    (h : getJob s j = some r) : (j, r) ∈ s := by
  induction s with
  | nil => simp [getJob] at h
  | cons p t ih =>
    rcases p with ⟨k, v⟩
    by_cases hk : k = j
    · subst hk
      have hv : getJob ((k, v) :: t) k = some v := by simp [getJob, List.find?_cons]
      rw [hv] at h
      rw [Option.some_inj] at h
      subst h
      exact List.mem_cons_self _ _
    · have ht : getJob ((k, v) :: t) j = getJob t j := by
        simp [getJob, List.find?_cons, hk]
      rw [ht] at h
      exact List.mem_cons_of_mem _ (ih h)

theorem statusRead_store_eq (presign : String → String) (s : JobStore)
    (jobIdOpt : Option String) (now : Nat) :
    (statusRead presign s jobIdOpt now).store = s := rfl

/-! Hex-signature lemmas for format detection. -/

set_option maxRecDepth 8000

theorem hexPair_ff : ∀ b, b < 256 →
    ((hexDigit (b % 256 / 16) = 'f' ∧ hexDigit (b % 16) = 'f') ↔ b = 255) := by decide

theorem hexPair_d8 : ∀ b, b < 256 →
    ((hexDigit (b % 256 / 16) = 'd' ∧ hexDigit (b % 16) = '8') ↔ b = 216) := by decide

theorem hexPair_89 : ∀ b, b < 256 →
    ((hexDigit (b % 256 / 16) = '8' ∧ hexDigit (b % 16) = '9') ↔ b = 137) := by decide

theorem hexPair_50 : ∀ b, b < 256 →
    ((hexDigit (b % 256 / 16) = '5' ∧ hexDigit (b % 16) = '0') ↔ b = 80) := by decide

theorem fileSignature_cons (b0 b1 : Nat) (rest : List Nat) :
    fileSignature (b0 :: b1 :: rest) =
      hexDigit (b0 % 256 / 16) :: hexDigit (b0 % 16) ::
      hexDigit (b1 % 256 / 16) :: hexDigit (b1 % 16) ::
      ((rest.take 2).map byteHex).flatten := by
  simp [fileSignature, byteHex]

theorem detectFormat_cons (b0 b1 : Nat) (rest : List Nat) (h0 : b0 < 256) (h1 : b1 < 256) :
    detectFormat (b0 :: b1 :: rest) =
      if b0 = 255 ∧ b1 = 216 then ("jpg", "image/jpeg")
      else if b0 = 137 ∧ b1 = 80 then ("png", "image/png")
      else ("jpg", "image/jpeg") := by
  have hffd8 : (['f', 'f', 'd', '8'].isPrefixOf (fileSignature (b0 :: b1 :: rest)) = true) ↔
      (b0 = 255 ∧ b1 = 216) := by
    rw [fileSignature_cons]
    simp only [List.isPrefixOf, Bool.and_eq_true, beq_iff_eq]
    constructor
    · rintro ⟨ha, hb, hc, hd, -⟩
      exact ⟨(hexPair_ff b0 h0).mp ⟨ha.symm, hb.symm⟩,
        (hexPair_d8 b1 h1).mp ⟨hc.symm, hd.symm⟩⟩
    · rintro ⟨rfl, rfl⟩
      exact ⟨by decide, by decide, by decide, by decide, by simp [List.isPrefixOf]⟩
  have h8950 : (['8', '9', '5', '0'].isPrefixOf (fileSignature (b0 :: b1 :: rest)) = true) ↔
      (b0 = 137 ∧ b1 = 80) := by
    rw [fileSignature_cons]
    simp only [List.isPrefixOf, Bool.and_eq_true, beq_iff_eq]
    constructor
    · rintro ⟨ha, hb, hc, hd, -⟩
      exact ⟨(hexPair_89 b0 h0).mp ⟨ha.symm, hb.symm⟩,
        (hexPair_50 b1 h1).mp ⟨hc.symm, hd.symm⟩⟩
    · rintro ⟨rfl, rfl⟩
      exact ⟨by decide, by decide, by decide, by decide, by simp [List.isPrefixOf]⟩
  by_cases hA : b0 = 255 ∧ b1 = 216
  · rw [detectFormat, if_pos (hffd8.mpr hA), if_pos hA]
  · by_cases hB : b0 = 137 ∧ b1 = 80
    · rw [detectFormat, if_neg (fun hc => hA (hffd8.mp hc)),
        if_pos (h8950.mpr hB), if_neg hA, if_pos hB]
    · rw [detectFormat, if_neg (fun hc => hA (hffd8.mp hc)),
        if_neg (fun hc => hB (h8950.mp hc)), if_neg hA, if_neg hB]

/-! Claim theorems. -/

/-- C1 counterexample: a job already terminal (completed) is overwritten by a
later Process attempt: the first write of the invocation puts the record back
to status processing, and a failing duplicate run then moves the completed
job to status failed.  This refutes the claim that no Process invocation ever
moves a terminal record out of its terminal state. -/
theorem duplicate_delivery_overwrites_terminal_cex :
    ((getJob (updateJobStatus [("j1", { jobId := "j1", status := "completed" })]
        "j1" "processing" id) "j1").map (·.status) = some "processing") ∧
    ((getJob (processRecord ⟨Except.error "fetch failed", Except.ok none, Except.ok (),
        fun k => k⟩
        [("j1", { jobId := "j1", status := "completed", imageUrl := some "u" })]
        7 "j1" "u").1 "j1").map (·.status) = some "failed") := by
  constructor
  · decide
  · decide

/-- C1 (amended): a Process invocation unconditionally overwrites the job's
status to processing regardless of its current (possibly terminal) value, and
every invocation ends with the record in a terminal state, completed or
failed; terminal records are not protected against duplicate deliveries. -/
theorem process_overwrites_status_and_ends_terminal (env : WorkerEnv) (s : JobStore)
    (now : Nat) (jobId productUrl : String) :
    ((getJob (updateJobStatus s jobId "processing" id) jobId).map (·.status) =
      some "processing") ∧
    (((getJob (processRecord env s now jobId productUrl).1 jobId).map (·.status) =
       some "completed") ∨
     ((getJob (processRecord env s now jobId productUrl).1 jobId).map (·.status) =
       some "failed")) := by
  constructor
  · simp [getJob_updateJobStatus_self]
  · rcases hs : env.scrape with e | info
    · exact Or.inr (by simp [processRecord, hs, getJob_updateJobStatus_self])
    · rcases hy : env.synthResult with e | ob
      · exact Or.inr (by simp [processRecord, hs, hy, getJob_updateJobStatus_self])
      · rcases ob with _ | bytes
        · exact Or.inr (by simp [processRecord, hs, hy, getJob_updateJobStatus_self])
        · rcases hu : env.uploadResult with e | u
          · exact Or.inr (by simp [processRecord, hs, hy, hu, getJob_updateJobStatus_self])
          · exact Or.inl (by simp [processRecord, hs, hy, hu, getJob_updateJobStatus_self])

/-- C2: when the scrape, synthesis, or upload step of a Process invocation
throws (with a non-empty message, and including the worker's own throw when
no image comes back), the handler catches the error and the invocation ends
with status failed, the thrown message recorded as the error, and a failedAt
timestamp; the record is not left in status processing. -/
theorem pipeline_failure_writes_failed (env : WorkerEnv) (s : JobStore) (now : Nat)
    (jobId productUrl : String) (e : String)
    (h : pipelineError env = some e) (hne : e ≠ "") :
    ((getJob (processRecord env s now jobId productUrl).1 jobId).map (·.status) =
      some "failed") ∧
    ((getJob (processRecord env s now jobId productUrl).1 jobId).map (·.error) =
      some (some e)) ∧
    ((getJob (processRecord env s now jobId productUrl).1 jobId).map (·.failedAt) =
      some (some now)) ∧
    some e ≠ some ("" : String) ∧
    ((getJob (processRecord env s now jobId productUrl).1 jobId).map (·.status) ≠
      some "processing") := by
  rcases hs : env.scrape with e1 | info
  · have he : e1 = e := by simpa [pipelineError, hs] using h
    subst he
    refine ⟨?_, ?_, ?_, by simpa using hne, ?_⟩ <;>
      simp [processRecord, hs, getJob_updateJobStatus_self]
  · rcases hy : env.synthResult with e1 | ob
    · have he : e1 = e := by simpa [pipelineError, hs, hy] using h
      subst he
      refine ⟨?_, ?_, ?_, by simpa using hne, ?_⟩ <;>
        simp [processRecord, hs, hy, getJob_updateJobStatus_self]
    · rcases ob with _ | bytes
      · have he : "No image returned from AI" = e := by
          simpa [pipelineError, hs, hy] using h
        subst he
        refine ⟨?_, ?_, ?_, by simp [hne], ?_⟩ <;>
          simp [processRecord, hs, hy, getJob_updateJobStatus_self]
      · rcases hu : env.uploadResult with e1 | u
        · have he : e1 = e := by simpa [pipelineError, hs, hy, hu] using h
          subst he
          refine ⟨?_, ?_, ?_, by simpa using hne, ?_⟩ <;>
            simp [processRecord, hs, hy, hu, getJob_updateJobStatus_self]
        · exfalso
          simp [pipelineError, hs, hy, hu] at h

/-- C2 witness: a concrete failing scrape ends in status failed with the
thrown message recorded. -/
theorem pipeline_failure_writes_failed_witness :
    ((getJob (processRecord ⟨Except.error "scrape timeout", Except.ok none,
        Except.ok (), fun k => k⟩ [] 5 "jw2" "u").1 "jw2").map (·.status) =
      some "failed") ∧
    ((getJob (processRecord ⟨Except.error "scrape timeout", Except.ok none,
        Except.ok (), fun k => k⟩ [] 5 "jw2" "u").1 "jw2").map (·.error) =
      some (some "scrape timeout")) :=
  ⟨(pipeline_failure_writes_failed ⟨Except.error "scrape timeout", Except.ok none,
      Except.ok (), fun k => k⟩ [] 5 "jw2" "u" "scrape timeout" rfl (by decide)).1,
   (pipeline_failure_writes_failed ⟨Except.error "scrape timeout", Except.ok none,
      Except.ok (), fun k => k⟩ [] 5 "jw2" "u" "scrape timeout" rfl (by decide)).2.1⟩

/-- C5: on the successful path the image format is classified from the
leading bytes (ffd8 gives jpg and image/jpeg, 8950 gives png and image/png,
anything else — including buffers of fewer than two bytes — defaults to jpg
and image/jpeg), and the object key written to the record and used for the
upload is the jobId followed by a dot and the detected extension. -/
theorem artifact_key_format_detection (env : WorkerEnv) (s : JobStore) (now : Nat)
    (jobId productUrl : String) (bytes : List Nat) (info : ProductInfo)
    (h1 : env.scrape = Except.ok info)
    (h2 : env.synthResult = Except.ok (some bytes))
    (h3 : env.uploadResult = Except.ok ()) :
    ((getJob (processRecord env s now jobId productUrl).1 jobId).map (·.fileName) =
      some (some (jobId ++ "." ++ (detectFormat bytes).1))) ∧
    ((getJob (processRecord env s now jobId productUrl).1 jobId).map (·.contentType) =
      some (some (detectFormat bytes).2)) ∧
    ((processRecord env s now jobId productUrl).2.map S3Put.key =
      [jobId ++ "." ++ (detectFormat bytes).1]) ∧
    ((processRecord env s now jobId productUrl).2.map S3Put.contentType =
      [(detectFormat bytes).2]) ∧
    (∀ rest : List Nat, detectFormat (255 :: 216 :: rest) = ("jpg", "image/jpeg")) ∧
    (∀ rest : List Nat, detectFormat (137 :: 80 :: rest) = ("png", "image/png")) ∧
    (detectFormat [] = ("jpg", "image/jpeg")) ∧
    (∀ b : Nat, detectFormat [b] = ("jpg", "image/jpeg")) ∧
    (∀ b0 b1 : Nat, ∀ rest : List Nat, b0 < 256 → b1 < 256 →
      ¬(b0 = 255 ∧ b1 = 216) → ¬(b0 = 137 ∧ b1 = 80) →
      detectFormat (b0 :: b1 :: rest) = ("jpg", "image/jpeg")) := by
  refine ⟨?_, ?_, ?_, ?_, ?_, ?_, ?_, ?_, ?_⟩
  · simp [processRecord, h1, h2, h3, getJob_updateJobStatus_self]
  · simp [processRecord, h1, h2, h3, getJob_updateJobStatus_self]
  · simp [processRecord, h1, h2, h3]
  · simp [processRecord, h1, h2, h3]
  · intro rest
    rw [detectFormat_cons 255 216 rest (by decide) (by decide)]
    simp
  · intro rest
    rw [detectFormat_cons 137 80 rest (by decide) (by decide)]
    simp
  · rfl
  · intro b
    simp [detectFormat, fileSignature, byteHex, List.isPrefixOf]
  · intro b0 b1 rest h0 hb1 hA hB
    rw [detectFormat_cons b0 b1 rest h0 hb1, if_neg hA, if_neg hB]

/-- C5 witness: concrete JPEG-signature bytes produce the key jw5.jpg with
content type image/jpeg. -/
theorem artifact_key_format_detection_witness :
    ((processRecord ⟨Except.ok ⟨"", "", "", "", "", "", "", ""⟩,
        Except.ok (some [255, 216, 0, 0]), Except.ok (), fun k => "url-" ++ k⟩
        [] 3 "jw5" "u").2.map S3Put.key = ["jw5.jpg"]) ∧
    ((processRecord ⟨Except.ok ⟨"", "", "", "", "", "", "", ""⟩,
        Except.ok (some [255, 216, 0, 0]), Except.ok (), fun k => "url-" ++ k⟩
        [] 3 "jw5" "u").2.map S3Put.contentType = ["image/jpeg"]) :=
  ⟨(artifact_key_format_detection ⟨Except.ok ⟨"", "", "", "", "", "", "", ""⟩,
      Except.ok (some [255, 216, 0, 0]), Except.ok (), fun k => "url-" ++ k⟩
      [] 3 "jw5" "u" [255, 216, 0, 0] ⟨"", "", "", "", "", "", "", ""⟩
      rfl rfl rfl).2.2.1,
   (artifact_key_format_detection ⟨Except.ok ⟨"", "", "", "", "", "", "", ""⟩,
      Except.ok (some [255, 216, 0, 0]), Except.ok (), fun k => "url-" ++ k⟩
      [] 3 "jw5" "u" [255, 216, 0, 0] ⟨"", "", "", "", "", "", "", ""⟩
      rfl rfl rfl).2.2.2.1⟩

/-- C6: a submission whose productUrl is missing or the empty string returns
a validation error (400), writes no job record, enqueues nothing, and
returns no jobId. -/
theorem invalid_submission_no_effects (s : JobStore) (now : Nat) (newJobId : String)
    (enqueueOk : Bool) (productUrl : Option String)
    (h : productUrl = none ∨ productUrl = some "") :
    (receive s now newJobId enqueueOk productUrl).statusCode = 400 ∧
    (receive s now newJobId enqueueOk productUrl).store = s ∧
    (receive s now newJobId enqueueOk productUrl).queueSent = [] ∧
    (receive s now newJobId enqueueOk productUrl).events = [] ∧
    (receive s now newJobId enqueueOk productUrl).jobIdReturned = none := by
  have hf : jsFalsyStr productUrl = true := by
    rcases h with rfl | rfl <;> simp [jsFalsyStr]
  refine ⟨?_, ?_, ?_, ?_, ?_⟩ <;> simp [receive, hf]

/-- C6 witness: submitting the empty productUrl is rejected with no record
write and no enqueue. -/
theorem invalid_submission_no_effects_witness :
    (receive [] 0 "w6" true (some "")).statusCode = 400 ∧
    (receive [] 0 "w6" true (some "")).store = [] ∧
    (receive [] 0 "w6" true (some "")).queueSent = [] :=
  ⟨(invalid_submission_no_effects [] 0 "w6" true (some "") (Or.inr rfl)).1,
   (invalid_submission_no_effects [] 0 "w6" true (some "") (Or.inr rfl)).2.1,
   (invalid_submission_no_effects [] 0 "w6" true (some "") (Or.inr rfl)).2.2.1⟩

/-- C7: for a valid submission the record write (status pending, createdAt
now, retention deadline 24 hours ahead) is the first event and precedes the
enqueue; when the enqueue fails after the write, the pending record exists
in the store and the caller receives a 500 with no jobId. -/
theorem record_write_precedes_enqueue (s : JobStore) (now : Nat) (newJobId : String)
    (productUrl : Option String) (h : jsFalsyStr productUrl = false) :
    ((receive s now newJobId true productUrl).events =
      [RecvEvent.putRecord newJobId, RecvEvent.sendMessage newJobId]) ∧
    ((receive s now newJobId false productUrl).events = [RecvEvent.putRecord newJobId]) ∧
    ((receive s now newJobId false productUrl).statusCode = 500) ∧
    ((receive s now newJobId false productUrl).jobIdReturned = none) ∧
    (getJob (receive s now newJobId false productUrl).store newJobId =
      some { jobId := newJobId, productUrl := some (productUrl.getD ""),
             status := "pending", createdAt := some now,
             ttl := some (now / 1000 + 86400) }) := by
  have hf : ¬ jsFalsyStr productUrl = true := by simp [h]
  refine ⟨?_, ?_, ?_, ?_, ?_⟩ <;> simp [receive, hf, getJob_putJob_self]

/-- C7 witness: a concrete valid submission writes the record first and then
enqueues; with a failing queue the pending record remains and the caller
gets a 500. -/
theorem record_write_precedes_enqueue_witness :
    ((receive [] 0 "w7" true (some "https://example.com/widget")).events =
      [RecvEvent.putRecord "w7", RecvEvent.sendMessage "w7"]) ∧
    ((receive [] 0 "w7" false (some "https://example.com/widget")).statusCode = 500) :=
  ⟨(record_write_precedes_enqueue [] 0 "w7" (some "https://example.com/widget")
      (by decide)).1,
   (record_write_precedes_enqueue [] 0 "w7" (some "https://example.com/widget")
      (by decide)).2.2.1⟩

/-! Renewal-protocol lemmas. -/

theorem ensureFreshLink_regen (presign : String → String) (job : JobRecord)
    (now : Nat) (f : String)
    (hregen : jsFalsyStr job.imageUrl = true ∨ job.expiresAt.getD 0 < now + 300000)
    (hfile : job.fileName = some f) (hf : f ≠ "") :
    ensureFreshLink presign job now = ((some (presign f), now + 3600000), [f]) := by
  have hnf : jsFalsyStr job.fileName = false := by simp [hfile, jsFalsyStr, hf]
  unfold ensureFreshLink
  rw [if_pos hregen, if_pos hnf, hfile]
  simp

theorem ensureFreshLink_keep (presign : String → String) (job : JobRecord) (now : Nat)
    (himg : jsFalsyStr job.imageUrl = false)
    (hexp : now + 300000 ≤ job.expiresAt.getD 0) :
    ensureFreshLink presign job now = ((job.imageUrl, job.expiresAt.getD 0), []) := by
  unfold ensureFreshLink
  rw [if_neg]
  rintro (h | h)
  · rw [himg] at h
    exact Bool.false_ne_true h
  · omega

theorem ensureFreshLink_fallback (presign : String → String) (job : JobRecord)
    (now : Nat)
    (hregen : jsFalsyStr job.imageUrl = true ∨ job.expiresAt.getD 0 < now + 300000)
    (hnf : jsFalsyStr job.fileName = true) :
    ensureFreshLink presign job now = ((job.imageUrl, job.expiresAt.getD 0), []) := by
  unfold ensureFreshLink
  rw [if_pos hregen, if_neg (by simp [hnf])]

theorem statusRead_completed (presign : String → String) (s : JobStore)
    (jobId : String) (now : Nat) (job : JobRecord)
    (hget : getJob s jobId = some job) (hstatus : job.status = "completed") :
    statusRead presign s (some jobId) now =
      ⟨{ statusCode := 200, jobId := some job.jobId, status := some job.status,
         createdAt := job.createdAt,
         imageUrl := (ensureFreshLink presign job now).1.1,
         urlExpiresAt := some (ensureFreshLink presign job now).1.2,
         overlayText := job.overlayText, contentType := job.contentType,
         completedAt := job.completedAt, fileName := job.fileName },
       s, (ensureFreshLink presign job now).2⟩ := by
  simp only [statusRead, hget, hstatus]
  simp

/-- C3 counterexample: a completed job with a stale stored link (stored pair
(stale, 0)) read at time 1000000: the response carries the freshly generated
pair, but the stored record still holds the old pair after the read, so the
newly generated pair is not persisted and the stored pair differs from the
returned pair. -/
theorem renewal_not_persisted_cex :
    ((statusRead (fun k => String.append "fresh-" k)
        [("j2", { jobId := "j2", status := "completed", imageUrl := some "stale",
                  expiresAt := some 0, fileName := some "j2.jpg" })]
        (some "j2") 1000000).response.imageUrl = some "fresh-j2.jpg") ∧
    ((statusRead (fun k => String.append "fresh-" k)
        [("j2", { jobId := "j2", status := "completed", imageUrl := some "stale",
                  expiresAt := some 0, fileName := some "j2.jpg" })]
        (some "j2") 1000000).response.urlExpiresAt = some 4600000) ∧
    ((getJob (statusRead (fun k => String.append "fresh-" k)
        [("j2", { jobId := "j2", status := "completed", imageUrl := some "stale",
                  expiresAt := some 0, fileName := some "j2.jpg" })]
        (some "j2") 1000000).store "j2").map (·.imageUrl) = some (some "stale")) ∧
    ((getJob (statusRead (fun k => String.append "fresh-" k)
        [("j2", { jobId := "j2", status := "completed", imageUrl := some "stale",
                  expiresAt := some 0, fileName := some "j2.jpg" })]
        (some "j2") 1000000).store "j2").map (·.expiresAt) = some (some 0)) := by
  refine ⟨?_, ?_, ?_, ?_⟩ <;> decide

/-- C3 (amended): when a status read of a completed job triggers link
regeneration (stored link falsy, or expiring within five minutes, with the
artifact key present), the responder returns the newly generated pair
(presigned URL for the stored key, expiry one hour from now) to the caller,
but does not persist it: the job store is returned unchanged. -/
theorem renewal_returns_fresh_pair_without_persisting (presign : String → String)
    (s : JobStore) (jobId : String) (now : Nat) (job : JobRecord) (f : String)
    (hget : getJob s jobId = some job)
    (hstatus : job.status = "completed")
    (hregen : jsFalsyStr job.imageUrl = true ∨ job.expiresAt.getD 0 < now + 300000)
    (hfile : job.fileName = some f) (hf : f ≠ "") :
    ((statusRead presign s (some jobId) now).response.imageUrl = some (presign f)) ∧
    ((statusRead presign s (some jobId) now).response.urlExpiresAt =
      some (now + 3600000)) ∧
    ((statusRead presign s (some jobId) now).presignCalls = [f]) ∧
    ((statusRead presign s (some jobId) now).store = s) := by
  rw [statusRead_completed presign s jobId now job hget hstatus,
    ensureFreshLink_regen presign job now f hregen hfile hf]
  exact ⟨rfl, rfl, rfl, rfl⟩

/-- C3 (amended) witness: the concrete stale-link read returns the fresh
pair and leaves the store unchanged. -/
theorem renewal_returns_fresh_pair_without_persisting_witness :
    ((statusRead (fun k => String.append "fresh-" k)
        [("j3", { jobId := "j3", status := "completed", imageUrl := some "stale",
                  expiresAt := some 0, fileName := some "j3.png" })]
        (some "j3") 2000000).response.imageUrl = some "fresh-j3.png") ∧
    ((statusRead (fun k => String.append "fresh-" k)
        [("j3", { jobId := "j3", status := "completed", imageUrl := some "stale",
                  expiresAt := some 0, fileName := some "j3.png" })]
        (some "j3") 2000000).store =
      [("j3", { jobId := "j3", status := "completed", imageUrl := some "stale",
                expiresAt := some 0, fileName := some "j3.png" })]) :=
  ⟨(renewal_returns_fresh_pair_without_persisting (fun k => String.append "fresh-" k)
      [("j3", { jobId := "j3", status := "completed", imageUrl := some "stale",
                expiresAt := some 0, fileName := some "j3.png" })]
      "j3" 2000000
      { jobId := "j3", status := "completed", imageUrl := some "stale",
        expiresAt := some 0, fileName := some "j3.png" }
      "j3.png" rfl rfl (Or.inr (by decide)) rfl (by decide)).1,
   (renewal_returns_fresh_pair_without_persisting (fun k => String.append "fresh-" k)
      [("j3", { jobId := "j3", status := "completed", imageUrl := some "stale",
                expiresAt := some 0, fileName := some "j3.png" })]
      "j3" 2000000
      { jobId := "j3", status := "completed", imageUrl := some "stale",
        expiresAt := some 0, fileName := some "j3.png" }
      "j3.png" rfl rfl (Or.inr (by decide)) rfl (by decide)).2.2.2⟩

/-- C4: on a status read of a completed job: when the stored link is present
and expires at least five minutes after now, the stored pair is returned
unchanged with no presign call; when regeneration would be needed but the
artifact key is falsy, the read returns the stored link fields (expiry
defaulting to 0 when absent) with a 200 instead of failing; otherwise a new
link for the stored key is generated and returned with expiry one hour from
now. -/
theorem status_read_link_cases (presign : String → String) (s : JobStore)
    (jobId : String) (now : Nat) (job : JobRecord)
    (hget : getJob s jobId = some job) (hstatus : job.status = "completed") :
    (jsFalsyStr job.imageUrl = false → now + 300000 ≤ job.expiresAt.getD 0 →
      ((statusRead presign s (some jobId) now).response.imageUrl = job.imageUrl ∧
       (statusRead presign s (some jobId) now).response.urlExpiresAt =
         some (job.expiresAt.getD 0) ∧
       (statusRead presign s (some jobId) now).presignCalls = [])) ∧
    ((jsFalsyStr job.imageUrl = true ∨ job.expiresAt.getD 0 < now + 300000) →
      jsFalsyStr job.fileName = true →
      ((statusRead presign s (some jobId) now).response.statusCode = 200 ∧
       (statusRead presign s (some jobId) now).response.imageUrl = job.imageUrl ∧
       (statusRead presign s (some jobId) now).response.urlExpiresAt =
         some (job.expiresAt.getD 0) ∧
       (statusRead presign s (some jobId) now).presignCalls = [])) ∧
    (∀ f : String,
      (jsFalsyStr job.imageUrl = true ∨ job.expiresAt.getD 0 < now + 300000) →
      job.fileName = some f → f ≠ "" →
      ((statusRead presign s (some jobId) now).response.imageUrl = some (presign f) ∧
       (statusRead presign s (some jobId) now).response.urlExpiresAt =
         some (now + 3600000) ∧
       (statusRead presign s (some jobId) now).presignCalls = [f])) := by
  rw [statusRead_completed presign s jobId now job hget hstatus]
  refine ⟨?_, ?_, ?_⟩
  · intro h1 h2
    rw [ensureFreshLink_keep presign job now h1 h2]
    exact ⟨rfl, rfl, rfl⟩
  · intro h1 h2
    rw [ensureFreshLink_fallback presign job now h1 h2]
    exact ⟨rfl, rfl, rfl, rfl⟩
  · intro f h1 h2 h3
    rw [ensureFreshLink_regen presign job now f h1 h2 h3]
    exact ⟨rfl, rfl, rfl⟩

/-- C4 witness: a completed job whose stored link is still fresh (expiry
well past now plus five minutes) is returned unchanged with no presign
call. -/
theorem status_read_link_cases_witness :
    ((statusRead (fun k => k)
        [("w4", { jobId := "w4", status := "completed", imageUrl := some "link",
                  expiresAt := some 10000000 })]
        (some "w4") 0).response.imageUrl = some "link") ∧
    ((statusRead (fun k => k)
        [("w4", { jobId := "w4", status := "completed", imageUrl := some "link",
                  expiresAt := some 10000000 })]
        (some "w4") 0).presignCalls = []) := by
  have h := (status_read_link_cases (fun k => k)
      [("w4", { jobId := "w4", status := "completed", imageUrl := some "link",
                expiresAt := some 10000000 })]
      "w4" 0
      { jobId := "w4", status := "completed", imageUrl := some "link",
        expiresAt := some 10000000 }
      rfl rfl).1 (by decide) (by decide)
  exact ⟨h.1, h.2.2⟩

/-- C10: a status read leaves the job record store unchanged: the responder
performs only a point get, and even when it regenerates an expiring link for
a completed job the fresh pair appears only in the response while every
stored record keeps its previous field values. -/
theorem status_read_frame (presign : String → String) (s : JobStore)
    (jobIdOpt : Option String) (now : Nat) :
    (statusRead presign s jobIdOpt now).store = s ∧
    (∀ j, getJob (statusRead presign s jobIdOpt now).store j = getJob s j) :=
  ⟨rfl, fun _ => rfl⟩

/-! Sanitization lemmas. -/

theorem mem_jsTrim {c : Char} {l : List Char} (h : c ∈ jsTrim l) : c ∈ l := by
  unfold jsTrim at h
  rw [List.mem_reverse] at h
  have h1 : c ∈ (l.dropWhile jsWhitespace).reverse :=
    (List.dropWhile_sublist _).subset h
  rw [List.mem_reverse] at h1
  exact (List.dropWhile_sublist _).subset h1

theorem length_jsTrim_le (l : List Char) : (jsTrim l).length ≤ l.length := by
  unfold jsTrim
  rw [List.length_reverse]
  calc ((l.dropWhile jsWhitespace).reverse.dropWhile jsWhitespace).length
      ≤ (l.dropWhile jsWhitespace).reverse.length :=
        (List.dropWhile_sublist _).length_le
    _ = (l.dropWhile jsWhitespace).length := List.length_reverse _
    _ ≤ l.length := (List.dropWhile_sublist _).length_le

/-- C8: every value sanitizeMetadata produces contains only printable ASCII
characters (codes 0x20 to 0x7E, hence no control and no non-printable
characters) and is at most 200 characters long, for every possible input;
a missing (null or undefined) input sanitizes to the empty string. -/
theorem sanitizeMetadata_printable_bounded :
    (∀ v : Option String,
      ((sanitizeMetadata v).toList.all isPrintableAscii = true) ∧
      (sanitizeMetadata v).length ≤ 200) ∧
    sanitizeMetadata none = "" := by
  refine ⟨?_, rfl⟩
  intro v
  match v with
  | none => exact ⟨rfl, by simp [sanitizeMetadata]⟩
  | some str =>
    by_cases hs : str = ""
    · subst hs
      exact ⟨rfl, by simp [sanitizeMetadata]⟩
    · have hdef : sanitizeMetadata (some str) =
          String.mk (jsTrim
            (((str.toList.map replaceCrLfTab).filter isPrintableAscii).take 200)) := by
        simp [sanitizeMetadata, hs]
      rw [hdef]
      constructor
      · rw [List.all_eq_true]
        intro c hc
        have hc2 : c ∈ jsTrim
            (((str.toList.map replaceCrLfTab).filter isPrintableAscii).take 200) := hc
        have hc3 : c ∈ ((str.toList.map replaceCrLfTab).filter isPrintableAscii).take 200 :=
          mem_jsTrim hc2
        have hc4 : c ∈ (str.toList.map replaceCrLfTab).filter isPrintableAscii :=
          (List.take_sublist _ _).subset hc3
        exact List.of_mem_filter hc4
      · calc (String.mk (jsTrim
              (((str.toList.map replaceCrLfTab).filter isPrintableAscii).take 200))).length
            = (jsTrim
              (((str.toList.map replaceCrLfTab).filter isPrintableAscii).take 200)).length :=
              rfl
          _ ≤ (((str.toList.map replaceCrLfTab).filter isPrintableAscii).take 200).length :=
              length_jsTrim_le _
          _ ≤ 200 := List.length_take_le _ _

/-! System-level lemmas. -/

theorem step_keys_submitted {st st2 : SysState} (hstep : SysStep st st2)
    (ih : (∀ p ∈ st.store, p.1 ∈ st.submitted) ∧
      (∀ m ∈ st.queue, m.1 ∈ st.submitted)) :
    (∀ p ∈ st2.store, p.1 ∈ st2.submitted) ∧
    (∀ m ∈ st2.queue, m.1 ∈ st2.submitted) := by
  cases hstep with
  | submit now newJobId enqueueOk productUrl =>
    by_cases hf : jsFalsyStr productUrl = true
    · have hrec : receive st.store now newJobId enqueueOk productUrl =
          ⟨400, none, st.store, [], []⟩ := by simp [receive, hf]
      refine ⟨fun p hp => ?_, fun m hm => ?_⟩
      · rw [if_pos hf]
        rw [hrec] at hp
        exact ih.1 p hp
      · rw [if_pos hf]
        rw [hrec] at hm
        rw [List.append_nil] at hm
        exact ih.2 m hm
    · have hstore : (receive st.store now newJobId enqueueOk productUrl).store =
          putJob st.store newJobId
            { jobId := newJobId, productUrl := some (productUrl.getD ""),
              status := "pending", createdAt := some now,
              ttl := some (now / 1000 + 86400) } := by
        cases enqueueOk <;> simp [receive, hf]
      have hsent : ∀ m ∈ (receive st.store now newJobId enqueueOk productUrl).queueSent,
          m.1 = newJobId := by
        cases enqueueOk <;> simp [receive, hf]
      refine ⟨fun p hp => ?_, fun m hm => ?_⟩
      · rw [if_neg hf]
        rw [hstore] at hp
        rcases mem_putJob hp with h3 | h3
        · rw [h3]
          exact List.mem_cons_self _ _
        · exact List.mem_cons_of_mem _ (ih.1 p h3)
      · rw [if_neg hf]
        rcases List.mem_append.mp hm with h3 | h3
        · exact List.mem_cons_of_mem _ (ih.2 m h3)
        · rw [hsent m h3]
          exact List.mem_cons_self _ _
  | process env now jobId productUrl hq =>
    refine ⟨fun p hp => ?_, ih.2⟩
    rcases mem_processRecord hp with h3 | h3
    · rw [h3]
      exact ih.2 _ hq
    · exact ih.1 p h3
  | read presign jobIdOpt now =>
    refine ⟨fun p hp => ?_, ih.2⟩
    rw [statusRead_store_eq] at hp
    exact ih.1 p hp

theorem reachable_keys_submitted {st : SysState} (h : SysReachable st) :
    (∀ p ∈ st.store, p.1 ∈ st.submitted) ∧
    (∀ m ∈ st.queue, m.1 ∈ st.submitted) := by
  induction h with
  | init => exact ⟨by simp, by simp⟩
  | step h1 h2 ih => exact step_keys_submitted h2 ih

theorem statusRead_found (presign : String → String) (s : JobStore) (j : String)
    (now : Nat) (r : JobRecord) (hg : getJob s j = some r) :
    (statusRead presign s (some j) now).response.statusCode = 200 ∧
    (statusRead presign s (some j) now).response.status = some r.status := by
  simp only [statusRead, hg]
  split_ifs <;> simp

/-- C9 (amended): in every reachable system state, a status lookup for a
jobId for which no submission ever wrote a record (whether or not it was
accepted) returns the not-found signal (404); and for every jobId whose
record exists, the lookup returns a 200 shaped with that record's status.
Process invocations only occur for messages on the work queue, whose jobIds
all come from submissions. -/
theorem never_written_lookup_not_found (presign : String → String) (now : Nat)
    {st : SysState} (h : SysReachable st) :
    (∀ j, j ∉ st.submitted →
      (getJob st.store j = none ∧
       (statusRead presign st.store (some j) now).response.statusCode = 404)) ∧
    (∀ j r, getJob st.store j = some r →
      ((statusRead presign st.store (some j) now).response.statusCode = 200 ∧
       (statusRead presign st.store (some j) now).response.status = some r.status)) := by
  have inv := reachable_keys_submitted h
  constructor
  · intro j hj
    have hnone : getJob st.store j = none := by
      rcases hg : getJob st.store j with _ | r
      · rfl
      · exact absurd (inv.1 _ (getJob_mem hg)) hj
    refine ⟨hnone, ?_⟩
    simp [statusRead, hnone]
  · intro j r hg
    exact statusRead_found presign st.store j now r hg

/-- C9 (amended) witness: in the initial state no record exists, so the
lookup of an arbitrary jobId returns 404. -/
theorem never_written_lookup_not_found_witness :
    getJob ([] : JobStore) "ghost" = none ∧
    (statusRead (fun k => k) ([] : JobStore) (some "ghost") 0).response.statusCode = 404 :=
  (never_written_lookup_not_found (fun k => k) 0 SysReachable.init).1 "ghost"
    (by simp)

/-- C9 counterexample: a reachable state in which a submission wrote the
pending record but the enqueue failed, so the caller got a 500 and no
submission was accepted (the accepted list is empty), yet the status lookup
for that jobId returns 200 with the pending record instead of the not-found
signal required by the claim. -/
theorem unaccepted_jobId_found_cex :
    SysReachable
      { store := [("j0", { jobId := "j0", productUrl := some "u",
                           status := "pending", createdAt := some 0,
                           ttl := some 86400 })],
        queue := [], submitted := ["j0"], accepted := [] } ∧
    ((getJob [("j0", ({ jobId := "j0", productUrl := some "u", status := "pending",
                        createdAt := some 0, ttl := some 86400 } : JobRecord))]
        "j0").map (·.status) = some "pending") ∧
    ((statusRead (fun k => k)
        [("j0", { jobId := "j0", productUrl := some "u", status := "pending",
                  createdAt := some 0, ttl := some 86400 })]
        (some "j0") 0).response.statusCode = 200) := by
  refine ⟨?_, by decide, by decide⟩
  exact SysReachable.step SysReachable.init
    (SysStep.submit ⟨[], [], [], []⟩ 0 "j0" false (some "u"))
